import Mathlib

/-!
A shallow embedding of the Cloaked program (programs/cloaked/src/lib.rs).

Modelling conventions:
* `Pubkey` is modelled as `Nat`; the fixed verifier program id is an
  arbitrary distinguished constant.
* `u64` values are modelled as `Nat`; Rust's `checked_add`/`checked_sub`
  become `checked_add`/`checked_sub` below, failing exactly when the
  mathematical result leaves the `u64` range.
* `i64` values (timestamps, day indices) are modelled as `Int`; Rust's
  `i64` division truncates toward zero, which is `Int.tdiv`.
* Each instruction handler becomes a function from its pre-state and
  inputs to `Except ErrorCode result`.  An `Except.error` result models
  the transaction aborting: on Solana an aborted transaction rolls every
  account back, so an error carries no post-state — the pre-state and the
  vault balance are unchanged by construction.
* Lamport movements out of the vault are returned as an ordered list of
  `(Recipient × Nat)` pairs, in the exact order the handler issues the
  transfers.
* The CPI to the external ZK verifier is modelled by a boolean input
  `verifierAccepts`; `verify_zk_proof` additionally reports whether that
  CPI was reached (`verifierInvoked`).
-/

/-- Stands for the fixed verifier pubkey `G1fDd...UG3F` in the source. -/
def ZK_VERIFIER_PROGRAM_ID : Nat := 7

/-- Fixed fee for private operations. -/
def PRIVATE_OPERATION_FEE : Nat := 50000

/-- Fee reimbursement for spend operations. -/
def SPEND_FEE_REIMBURSEMENT : Nat := 10000

/-- Seconds in a day (for daily limit reset calculation). -/
def SECONDS_PER_DAY : Int := 86400

/-- ZK witness header size. -/
def WITNESS_HEADER_SIZE : Nat := 12

/-- Commitment size inside the witness. -/
def COMMITMENT_SIZE : Nat := 32

/-- Minimum witness length: header plus commitment. -/
def MIN_WITNESS_SIZE : Nat := WITNESS_HEADER_SIZE + COMMITMENT_SIZE

/-- One past the largest `u64` value. -/
def U64_BOUND : Nat := 2 ^ 64

/-- `u64::checked_add`: `none` exactly when the sum leaves the `u64` range. -/
def checked_add (a b : Nat) : Option Nat :=
  if a + b < U64_BOUND then some (a + b) else none

/-- `u64::checked_sub`: `none` exactly when the subtraction would underflow. -/
def checked_sub (a b : Nat) : Option Nat :=
  if b ≤ a then some (a - b) else none

/-- The error codes of the program, one constructor per `ErrorCode` variant. -/
inductive ErrorCode where
  | InsufficientBalance
  | Overflow
  | AgentFrozen
  | AgentExpired
  | ExceedsPerTxLimit
  | ExceedsDailyLimit
  | ExceedsTotalLimit
  | NotOwner
  | IsPrivateMode
  | NotPrivateMode
  | CommitmentMismatch
  | InvalidProof
  | ProofVerificationFailed
  | InvalidVerifierProgram
  | InsufficientBalanceForFee
  | InvalidCommitment
  deriving DecidableEq, Repr

/-- The possible receivers of a lamport transfer out of the vault. -/
inductive Recipient where
  | destination
  | feePayer
  | feeRecipient
  | owner
  deriving DecidableEq, Repr

/-- The persisted `CloakedAgentState` account. -/
structure CloakedAgentState where
  owner : Option Nat
  owner_commitment : List Nat
  delegate : Nat
  max_per_tx : Nat
  daily_limit : Nat
  total_limit : Nat
  expires_at : Int
  frozen : Bool
  total_spent : Nat
  daily_spent : Nat
  last_day : Int
  bump : Nat
  created_at : Int
  deriving DecidableEq, Repr

/-- `CloakedAgentState::is_private`: the account is in private mode iff it has
no direct owner. -/
def CloakedAgentState.is_private (s : CloakedAgentState) : Bool :=
  s.owner.isNone

/-- Result of `verify_zk_proof`: the outcome, plus whether the CPI to the
external verifier program was reached. -/
structure VerifyResult where
  result : Except ErrorCode Unit
  verifierInvoked : Bool
  deriving Repr

/-- `verify_zk_proof`: check the verifier program id, the witness length and
the commitment field at the fixed offset; only then CPI to the verifier
(modelled by `verifierAccepts`). -/
def verify_zk_proof (verifierKey : Nat) (proof_bytes witness_bytes : List Nat)
    (expected_commitment : List Nat) (verifierAccepts : Bool) : VerifyResult :=
  if verifierKey ≠ ZK_VERIFIER_PROGRAM_ID then
    ⟨.error .InvalidVerifierProgram, false⟩
  else if witness_bytes.length < MIN_WITNESS_SIZE then
    ⟨.error .InvalidProof, false⟩
  else if ((witness_bytes.drop WITNESS_HEADER_SIZE).take COMMITMENT_SIZE)
      ≠ expected_commitment then
    ⟨.error .CommitmentMismatch, false⟩
  else if verifierAccepts then
    ⟨.ok (), true⟩
  else
    ⟨.error .ProofVerificationFailed, true⟩

/-- `create_cloaked_agent`: standard-mode creation. -/
def create_cloaked_agent (ownerKey delegate : Nat)
    (max_per_tx daily_limit total_limit : Nat) (expires_at : Int)
    (now : Int) (bump : Nat) : CloakedAgentState :=
  { owner := some ownerKey
    owner_commitment := List.replicate 32 0
    delegate := delegate
    max_per_tx := max_per_tx
    daily_limit := daily_limit
    total_limit := total_limit
    expires_at := expires_at
    frozen := false
    total_spent := 0
    daily_spent := 0
    last_day := now.tdiv SECONDS_PER_DAY
    bump := bump
    created_at := now }

/-- `create_cloaked_agent_private`: private-mode creation; an all-zero
commitment is rejected. -/
def create_cloaked_agent_private (owner_commitment : List Nat) (delegate : Nat)
    (max_per_tx daily_limit total_limit : Nat) (expires_at : Int)
    (now : Int) (bump : Nat) : Except ErrorCode CloakedAgentState :=
  if owner_commitment = List.replicate 32 0 then .error .InvalidCommitment
  else .ok
    { owner := none
      owner_commitment := owner_commitment
      delegate := delegate
      max_per_tx := max_per_tx
      daily_limit := daily_limit
      total_limit := total_limit
      expires_at := expires_at
      frozen := false
      total_spent := 0
      daily_spent := 0
      last_day := now.tdiv SECONDS_PER_DAY
      bump := bump
      created_at := now }

/-- The daily-limit check of `spend` (0 = unlimited; the addition is
overflow-checked and an overflow is itself a rejection). -/
def checkDaily (s : CloakedAgentState) (amount : Nat) : Except ErrorCode Unit :=
  if s.daily_limit > 0 then
    match checked_add s.daily_spent amount with
    | none => .error .Overflow
    | some d => if d ≤ s.daily_limit then .ok () else .error .ExceedsDailyLimit
  else .ok ()

/-- The total-limit check of `spend` (0 = unlimited; overflow-checked). -/
def checkTotal (s : CloakedAgentState) (amount : Nat) : Except ErrorCode Unit :=
  if s.total_limit > 0 then
    match checked_add s.total_spent amount with
    | none => .error .Overflow
    | some t => if t ≤ s.total_limit then .ok () else .error .ExceedsTotalLimit
  else .ok ()

/-- The day-rollover step of `spend`: if the current day index
(`now` divided by `SECONDS_PER_DAY`, truncating toward zero as Rust's `i64`
division does) is beyond `last_day`, reset `daily_spent` and move
`last_day` forward; otherwise leave the state untouched. -/
def rollover (s : CloakedAgentState) (now : Int) : CloakedAgentState :=
  if s.last_day < now.tdiv SECONDS_PER_DAY then
    { s with daily_spent := 0, last_day := now.tdiv SECONDS_PER_DAY }
  else s

/-- `spend`: delegate spend with constraint enforcement, day rollover,
counter update, then principal-before-fee transfers. -/
def spend (s : CloakedAgentState) (now : Int) (vault : Nat) (amount : Nat) :
    Except ErrorCode (CloakedAgentState × List (Recipient × Nat)) :=
  if s.frozen then .error .AgentFrozen
  else if s.expires_at > 0 ∧ s.expires_at ≤ now then .error .AgentExpired
  else if s.max_per_tx > 0 ∧ s.max_per_tx < amount then .error .ExceedsPerTxLimit
  else
    match checkDaily (rollover s now) amount with
    | .error e => .error e
    | .ok _ =>
      match checkTotal (rollover s now) amount with
      | .error e => .error e
      | .ok _ =>
        match checked_add amount SPEND_FEE_REIMBURSEMENT with
        | none => .error .Overflow
        | some total_required =>
          if vault < total_required then .error .InsufficientBalance
          else
            match checked_add (rollover s now).daily_spent amount with
            | none => .error .Overflow
            | some d =>
              match checked_add (rollover s now).total_spent amount with
              | none => .error .Overflow
              | some t =>
                .ok ({ rollover s now with daily_spent := d, total_spent := t },
                  [(Recipient.destination, amount),
                   (Recipient.feePayer, SPEND_FEE_REIMBURSEMENT)])

/-- `withdraw`: owner-only, standard mode, no constraint checks; the state is
returned unchanged. -/
def withdraw (s : CloakedAgentState) (callerKey : Nat) (vault : Nat)
    (amount : Nat) :
    Except ErrorCode (CloakedAgentState × List (Recipient × Nat)) :=
  if s.is_private then .error .IsPrivateMode
  else if s.owner ≠ some callerKey then .error .NotOwner
  else if vault < amount then .error .InsufficientBalance
  else .ok (s, [(Recipient.destination, amount)])

/-- `freeze`: owner-only, standard mode. -/
def freeze (s : CloakedAgentState) (callerKey : Nat) :
    Except ErrorCode CloakedAgentState :=
  if s.is_private then .error .IsPrivateMode
  else if s.owner ≠ some callerKey then .error .NotOwner
  else .ok { s with frozen := true }

/-- `unfreeze`: owner-only, standard mode. -/
def unfreeze (s : CloakedAgentState) (callerKey : Nat) :
    Except ErrorCode CloakedAgentState :=
  if s.is_private then .error .IsPrivateMode
  else if s.owner ≠ some callerKey then .error .NotOwner
  else .ok { s with frozen := false }

/-- `freeze_private`: private mode, proof-gated, pays the fixed fee. -/
def freeze_private (s : CloakedAgentState) (verifierKey : Nat)
    (proof_bytes witness_bytes : List Nat) (verifierAccepts : Bool)
    (vault : Nat) :
    Except ErrorCode (CloakedAgentState × List (Recipient × Nat)) :=
  if ¬ s.is_private then .error .NotPrivateMode
  else
    match (verify_zk_proof verifierKey proof_bytes witness_bytes
        s.owner_commitment verifierAccepts).result with
    | .error e => .error e
    | .ok _ =>
      if vault < PRIVATE_OPERATION_FEE then .error .InsufficientBalanceForFee
      else .ok ({ s with frozen := true },
        [(Recipient.feeRecipient, PRIVATE_OPERATION_FEE)])

/-- `unfreeze_private`: private mode, proof-gated, pays the fixed fee. -/
def unfreeze_private (s : CloakedAgentState) (verifierKey : Nat)
    (proof_bytes witness_bytes : List Nat) (verifierAccepts : Bool)
    (vault : Nat) :
    Except ErrorCode (CloakedAgentState × List (Recipient × Nat)) :=
  if ¬ s.is_private then .error .NotPrivateMode
  else
    match (verify_zk_proof verifierKey proof_bytes witness_bytes
        s.owner_commitment verifierAccepts).result with
    | .error e => .error e
    | .ok _ =>
      if vault < PRIVATE_OPERATION_FEE then .error .InsufficientBalanceForFee
      else .ok ({ s with frozen := false },
        [(Recipient.feeRecipient, PRIVATE_OPERATION_FEE)])

/-- `update_constraints`: owner-only, standard mode; each provided field
overwrites the stored one. -/
def update_constraints (s : CloakedAgentState) (callerKey : Nat)
    (max_per_tx daily_limit total_limit : Option Nat)
    (expires_at : Option Int) : Except ErrorCode CloakedAgentState :=
  if s.is_private then .error .IsPrivateMode
  else if s.owner ≠ some callerKey then .error .NotOwner
  else .ok { s with
    max_per_tx := max_per_tx.getD s.max_per_tx
    daily_limit := daily_limit.getD s.daily_limit
    total_limit := total_limit.getD s.total_limit
    expires_at := expires_at.getD s.expires_at }

/-- `update_constraints_private`: private mode, proof-gated, pays the fixed
fee, then overwrites the provided fields. -/
def update_constraints_private (s : CloakedAgentState) (verifierKey : Nat)
    (proof_bytes witness_bytes : List Nat) (verifierAccepts : Bool)
    (vault : Nat) (max_per_tx daily_limit total_limit : Option Nat)
    (expires_at : Option Int) :
    Except ErrorCode (CloakedAgentState × List (Recipient × Nat)) :=
  if ¬ s.is_private then .error .NotPrivateMode
  else
    match (verify_zk_proof verifierKey proof_bytes witness_bytes
        s.owner_commitment verifierAccepts).result with
    | .error e => .error e
    | .ok _ =>
      if vault < PRIVATE_OPERATION_FEE then .error .InsufficientBalanceForFee
      else .ok ({ s with
          max_per_tx := max_per_tx.getD s.max_per_tx
          daily_limit := daily_limit.getD s.daily_limit
          total_limit := total_limit.getD s.total_limit
          expires_at := expires_at.getD s.expires_at },
        [(Recipient.feeRecipient, PRIVATE_OPERATION_FEE)])

/-- `close_cloaked_agent`: owner-only, standard mode; sweeps the whole vault
balance to the owner (the state account itself is closed by the runtime). -/
def close_cloaked_agent (s : CloakedAgentState) (callerKey : Nat)
    (vault : Nat) : Except ErrorCode (List (Recipient × Nat)) :=
  if s.is_private then .error .IsPrivateMode
  else if s.owner ≠ some callerKey then .error .NotOwner
  else .ok (if vault > 0 then [(Recipient.owner, vault)] else [])

/-- `close_cloaked_agent_private`: private mode, proof-gated; fee to the fee
recipient first, then the remaining balance (if positive) to the
destination. -/
def close_cloaked_agent_private (s : CloakedAgentState) (verifierKey : Nat)
    (proof_bytes witness_bytes : List Nat) (verifierAccepts : Bool)
    (vault : Nat) : Except ErrorCode (List (Recipient × Nat)) :=
  if ¬ s.is_private then .error .NotPrivateMode
  else
    match (verify_zk_proof verifierKey proof_bytes witness_bytes
        s.owner_commitment verifierAccepts).result with
    | .error e => .error e
    | .ok _ =>
      if vault < PRIVATE_OPERATION_FEE then .error .InsufficientBalanceForFee
      else
        match checked_sub vault PRIVATE_OPERATION_FEE with
        | none => .error .Overflow
        | some remaining =>
          .ok ((Recipient.feeRecipient, PRIVATE_OPERATION_FEE) ::
            (if remaining > 0 then [(Recipient.destination, remaining)] else []))

/-- `withdraw_private`: private mode, proof-gated, bypasses all constraints;
fee first, then the requested amount; the state is returned unchanged. -/
def withdraw_private (s : CloakedAgentState) (verifierKey : Nat)
    (proof_bytes witness_bytes : List Nat) (verifierAccepts : Bool)
    (vault : Nat) (amount : Nat) :
    Except ErrorCode (CloakedAgentState × List (Recipient × Nat)) :=
  if ¬ s.is_private then .error .NotPrivateMode
  else
    match (verify_zk_proof verifierKey proof_bytes witness_bytes
        s.owner_commitment verifierAccepts).result with
    | .error e => .error e
    | .ok _ =>
      match checked_add amount PRIVATE_OPERATION_FEE with
      | none => .error .Overflow
      | some total_required =>
        if vault < total_required then .error .InsufficientBalance
        else .ok (s,
          [(Recipient.feeRecipient, PRIVATE_OPERATION_FEE),
           (Recipient.destination, amount)])

/-! ## Basic facts about the checked arithmetic and the rollover step -/

theorem checked_add_eq_some {a b c : Nat} (h : checked_add a b = some c) :
    c = a + b ∧ a + b < U64_BOUND := by
  unfold checked_add at h
  split at h
  next hlt => exact ⟨(Option.some.inj h).symm, hlt⟩
  next => exact Option.noConfusion h

theorem checked_add_of_lt {a b : Nat} (h : a + b < U64_BOUND) :
    checked_add a b = some (a + b) := by
  unfold checked_add
  rw [if_pos h]

theorem rollover_owner (s : CloakedAgentState) (now : Int) :
    (rollover s now).owner = s.owner := by
  unfold rollover; split <;> rfl

theorem rollover_max_per_tx (s : CloakedAgentState) (now : Int) :
    (rollover s now).max_per_tx = s.max_per_tx := by
  unfold rollover; split <;> rfl

theorem rollover_daily_limit (s : CloakedAgentState) (now : Int) :
    (rollover s now).daily_limit = s.daily_limit := by
  unfold rollover; split <;> rfl

theorem rollover_total_limit (s : CloakedAgentState) (now : Int) :
    (rollover s now).total_limit = s.total_limit := by
  unfold rollover; split <;> rfl

theorem rollover_expires_at (s : CloakedAgentState) (now : Int) :
    (rollover s now).expires_at = s.expires_at := by
  unfold rollover; split <;> rfl

theorem rollover_frozen (s : CloakedAgentState) (now : Int) :
    (rollover s now).frozen = s.frozen := by
  unfold rollover; split <;> rfl

theorem rollover_total_spent (s : CloakedAgentState) (now : Int) :
    (rollover s now).total_spent = s.total_spent := by
  unfold rollover; split <;> rfl

theorem rollover_of_gt {s : CloakedAgentState} {now : Int}
    (h : s.last_day < now.tdiv SECONDS_PER_DAY) :
    (rollover s now).daily_spent = 0 ∧
    (rollover s now).last_day = now.tdiv SECONDS_PER_DAY := by
  unfold rollover
  rw [if_pos h]
  exact ⟨rfl, rfl⟩

theorem rollover_of_le {s : CloakedAgentState} {now : Int}
    (h : now.tdiv SECONDS_PER_DAY ≤ s.last_day) :
    rollover s now = s := by
  unfold rollover
  rw [if_neg (by omega)]

/-! ## Extraction lemmas: what a successful run of each handler implies -/

theorem checkDaily_ok {s : CloakedAgentState} {amount : Nat} {u : Unit}
    (h : checkDaily s amount = .ok u) :
    s.daily_limit > 0 → s.daily_spent + amount ≤ s.daily_limit := by
  intro hpos
  unfold checkDaily at h
  rw [if_pos hpos] at h
  split at h
  next => exact Except.noConfusion h
  next d hca =>
    obtain ⟨hd, _⟩ := checked_add_eq_some hca
    split at h
    next hle => exact hd ▸ hle
    next => exact Except.noConfusion h

theorem checkTotal_ok {s : CloakedAgentState} {amount : Nat} {u : Unit}
    (h : checkTotal s amount = .ok u) :
    s.total_limit > 0 → s.total_spent + amount ≤ s.total_limit := by
  intro hpos
  unfold checkTotal at h
  rw [if_pos hpos] at h
  split at h
  next => exact Except.noConfusion h
  next t hca =>
    obtain ⟨ht, _⟩ := checked_add_eq_some hca
    split at h
    next hle => exact ht ▸ hle
    next => exact Except.noConfusion h

theorem checkDaily_eq_ok {s : CloakedAgentState} {amount : Nat}
    (hb : s.daily_limit < U64_BOUND)
    (h : s.daily_limit > 0 → s.daily_spent + amount ≤ s.daily_limit) :
    checkDaily s amount = .ok () := by
  unfold checkDaily
  split
  next hpos =>
    simp only [checked_add_of_lt (show s.daily_spent + amount < U64_BOUND by
      have := h hpos; omega)]
    rw [if_pos (h hpos)]
  next => rfl

theorem checkTotal_eq_ok {s : CloakedAgentState} {amount : Nat}
    (hb : s.total_limit < U64_BOUND)
    (h : s.total_limit > 0 → s.total_spent + amount ≤ s.total_limit) :
    checkTotal s amount = .ok () := by
  unfold checkTotal
  split
  next hpos =>
    simp only [checked_add_of_lt (show s.total_spent + amount < U64_BOUND by
      have := h hpos; omega)]
    rw [if_pos (h hpos)]
  next => rfl

theorem spend_ok_spec {s : CloakedAgentState} {now : Int} {vault amount : Nat}
    {s' : CloakedAgentState} {tr : List (Recipient × Nat)}
    (h : spend s now vault amount = .ok (s', tr)) :
    s' = { rollover s now with
           daily_spent := (rollover s now).daily_spent + amount
           total_spent := (rollover s now).total_spent + amount } ∧
    tr = [(Recipient.destination, amount),
          (Recipient.feePayer, SPEND_FEE_REIMBURSEMENT)] ∧
    s.frozen = false ∧
    (s.expires_at > 0 → now < s.expires_at) ∧
    (s.max_per_tx > 0 → amount ≤ s.max_per_tx) ∧
    (s.daily_limit > 0 → (rollover s now).daily_spent + amount ≤ s.daily_limit) ∧
    (s.total_limit > 0 → s.total_spent + amount ≤ s.total_limit) ∧
    (rollover s now).daily_spent + amount < U64_BOUND ∧
    s.total_spent + amount < U64_BOUND ∧
    amount + SPEND_FEE_REIMBURSEMENT < U64_BOUND ∧
    amount + SPEND_FEE_REIMBURSEMENT ≤ vault := by
  unfold spend at h
  split at h
  next => exact Except.noConfusion h
  next hfz =>
  split at h
  next => exact Except.noConfusion h
  next hexp =>
  split at h
  next => exact Except.noConfusion h
  next hptx =>
  split at h
  next => exact Except.noConfusion h
  next u hdaily =>
  split at h
  next => exact Except.noConfusion h
  next u' htotal =>
  split at h
  next => exact Except.noConfusion h
  next total_required hfee =>
  split at h
  next => exact Except.noConfusion h
  next hbal =>
  split at h
  next => exact Except.noConfusion h
  next d hd =>
  split at h
  next => exact Except.noConfusion h
  next t ht =>
  cases h
  obtain ⟨hfeeEq, hfeeLt⟩ := checked_add_eq_some hfee
  obtain ⟨hdEq, hdLt⟩ := checked_add_eq_some hd
  obtain ⟨htEq, htLt⟩ := checked_add_eq_some ht
  have hts := rollover_total_spent s now
  refine ⟨?_, ?_, ?_, ?_, ?_, ?_, ?_, ?_, ?_, ?_, ?_⟩
  · rw [hdEq, htEq]
  · rfl
  · simpa using hfz
  · intro hp
    by_contra hc
    exact hexp ⟨hp, by omega⟩
  · intro hp
    by_contra hc
    exact hptx ⟨hp, by omega⟩
  · have := checkDaily_ok hdaily
    rw [rollover_daily_limit] at this
    exact this
  · have := checkTotal_ok htotal
    rw [rollover_total_limit, hts] at this
    exact this
  · exact hdLt
  · rw [← hts]; exact htLt
  · exact hfeeLt
  · omega

theorem checked_sub_eq_some {a b c : Nat} (h : checked_sub a b = some c) :
    c = a - b ∧ b ≤ a := by
  unfold checked_sub at h
  split at h
  next hle => exact ⟨(Option.some.inj h).symm, hle⟩
  next => exact Option.noConfusion h

theorem withdraw_ok_spec {s : CloakedAgentState} {k vault amount : Nat}
    {s' : CloakedAgentState} {tr : List (Recipient × Nat)}
    (h : withdraw s k vault amount = .ok (s', tr)) :
    s' = s ∧ tr = [(Recipient.destination, amount)] ∧
    s.is_private = false ∧ s.owner = some k ∧ amount ≤ vault := by
  unfold withdraw at h
  split at h
  next => exact Except.noConfusion h
  next hpriv =>
  split at h
  next => exact Except.noConfusion h
  next hown =>
  split at h
  next => exact Except.noConfusion h
  next hbal =>
  cases h
  refine ⟨rfl, rfl, by simpa using hpriv, by simpa using hown, by omega⟩

theorem freeze_ok_spec {s : CloakedAgentState} {k : Nat}
    {s' : CloakedAgentState} (h : freeze s k = .ok s') :
    s' = { s with frozen := true } ∧ s.is_private = false ∧
    s.owner = some k := by
  unfold freeze at h
  split at h
  next => exact Except.noConfusion h
  next hpriv =>
  split at h
  next => exact Except.noConfusion h
  next hown =>
  cases h
  exact ⟨rfl, by simpa using hpriv, by simpa using hown⟩

theorem unfreeze_ok_spec {s : CloakedAgentState} {k : Nat}
    {s' : CloakedAgentState} (h : unfreeze s k = .ok s') :
    s' = { s with frozen := false } ∧ s.is_private = false ∧
    s.owner = some k := by
  unfold unfreeze at h
  split at h
  next => exact Except.noConfusion h
  next hpriv =>
  split at h
  next => exact Except.noConfusion h
  next hown =>
  cases h
  exact ⟨rfl, by simpa using hpriv, by simpa using hown⟩

theorem update_constraints_ok_spec {s : CloakedAgentState} {k : Nat}
    {m d t : Option Nat} {e : Option Int} {s' : CloakedAgentState}
    (h : update_constraints s k m d t e = .ok s') :
    s' = { s with
      max_per_tx := m.getD s.max_per_tx
      daily_limit := d.getD s.daily_limit
      total_limit := t.getD s.total_limit
      expires_at := e.getD s.expires_at } ∧
    s.is_private = false ∧ s.owner = some k := by
  unfold update_constraints at h
  split at h
  next => exact Except.noConfusion h
  next hpriv =>
  split at h
  next => exact Except.noConfusion h
  next hown =>
  cases h
  exact ⟨rfl, by simpa using hpriv, by simpa using hown⟩

theorem close_cloaked_agent_ok_spec {s : CloakedAgentState} {k vault : Nat}
    {tr : List (Recipient × Nat)}
    (h : close_cloaked_agent s k vault = .ok tr) :
    tr = (if vault > 0 then [(Recipient.owner, vault)] else []) ∧
    s.is_private = false ∧ s.owner = some k := by
  unfold close_cloaked_agent at h
  split at h
  next => exact Except.noConfusion h
  next hpriv =>
  split at h
  next => exact Except.noConfusion h
  next hown =>
  cases h
  exact ⟨rfl, by simpa using hpriv, by simpa using hown⟩

theorem freeze_private_ok_spec {s : CloakedAgentState} {vk : Nat}
    {pf wt : List Nat} {acc : Bool} {vault : Nat}
    {s' : CloakedAgentState} {tr : List (Recipient × Nat)}
    (h : freeze_private s vk pf wt acc vault = .ok (s', tr)) :
    s' = { s with frozen := true } ∧
    tr = [(Recipient.feeRecipient, PRIVATE_OPERATION_FEE)] ∧
    s.is_private = true ∧
    (verify_zk_proof vk pf wt s.owner_commitment acc).result = .ok () ∧
    PRIVATE_OPERATION_FEE ≤ vault := by
  unfold freeze_private at h
  split at h
  next => exact Except.noConfusion h
  next hpriv =>
  split at h
  next => exact Except.noConfusion h
  next u hv =>
  split at h
  next => exact Except.noConfusion h
  next hbal =>
  cases h
  refine ⟨rfl, rfl, by simpa using hpriv, ?_, by omega⟩
  cases u
  exact hv

theorem unfreeze_private_ok_spec {s : CloakedAgentState} {vk : Nat}
    {pf wt : List Nat} {acc : Bool} {vault : Nat}
    {s' : CloakedAgentState} {tr : List (Recipient × Nat)}
    (h : unfreeze_private s vk pf wt acc vault = .ok (s', tr)) :
    s' = { s with frozen := false } ∧
    tr = [(Recipient.feeRecipient, PRIVATE_OPERATION_FEE)] ∧
    s.is_private = true ∧
    (verify_zk_proof vk pf wt s.owner_commitment acc).result = .ok () ∧
    PRIVATE_OPERATION_FEE ≤ vault := by
  unfold unfreeze_private at h
  split at h
  next => exact Except.noConfusion h
  next hpriv =>
  split at h
  next => exact Except.noConfusion h
  next u hv =>
  split at h
  next => exact Except.noConfusion h
  next hbal =>
  cases h
  refine ⟨rfl, rfl, by simpa using hpriv, ?_, by omega⟩
  cases u
  exact hv

theorem update_constraints_private_ok_spec {s : CloakedAgentState} {vk : Nat}
    {pf wt : List Nat} {acc : Bool} {vault : Nat}
    {m d t : Option Nat} {e : Option Int}
    {s' : CloakedAgentState} {tr : List (Recipient × Nat)}
    (h : update_constraints_private s vk pf wt acc vault m d t e
      = .ok (s', tr)) :
    s' = { s with
      max_per_tx := m.getD s.max_per_tx
      daily_limit := d.getD s.daily_limit
      total_limit := t.getD s.total_limit
      expires_at := e.getD s.expires_at } ∧
    tr = [(Recipient.feeRecipient, PRIVATE_OPERATION_FEE)] ∧
    s.is_private = true ∧
    (verify_zk_proof vk pf wt s.owner_commitment acc).result = .ok () ∧
    PRIVATE_OPERATION_FEE ≤ vault := by
  unfold update_constraints_private at h
  split at h
  next => exact Except.noConfusion h
  next hpriv =>
  split at h
  next => exact Except.noConfusion h
  next u hv =>
  split at h
  next => exact Except.noConfusion h
  next hbal =>
  cases h
  refine ⟨rfl, rfl, by simpa using hpriv, ?_, by omega⟩
  cases u
  exact hv

theorem close_cloaked_agent_private_ok_spec {s : CloakedAgentState} {vk : Nat}
    {pf wt : List Nat} {acc : Bool} {vault : Nat}
    {tr : List (Recipient × Nat)}
    (h : close_cloaked_agent_private s vk pf wt acc vault = .ok tr) :
    tr = (Recipient.feeRecipient, PRIVATE_OPERATION_FEE) ::
      (if vault - PRIVATE_OPERATION_FEE > 0 then
        [(Recipient.destination, vault - PRIVATE_OPERATION_FEE)] else []) ∧
    s.is_private = true ∧
    (verify_zk_proof vk pf wt s.owner_commitment acc).result = .ok () ∧
    PRIVATE_OPERATION_FEE ≤ vault := by
  unfold close_cloaked_agent_private at h
  split at h
  next => exact Except.noConfusion h
  next hpriv =>
  split at h
  next => exact Except.noConfusion h
  next u hv =>
  split at h
  next => exact Except.noConfusion h
  next hbal =>
  split at h
  next => exact Except.noConfusion h
  next remaining hsub =>
  cases h
  obtain ⟨hrem, _⟩ := checked_sub_eq_some hsub
  refine ⟨by rw [hrem], by simpa using hpriv, ?_, by omega⟩
  cases u
  exact hv

theorem withdraw_private_ok_spec {s : CloakedAgentState} {vk : Nat}
    {pf wt : List Nat} {acc : Bool} {vault amount : Nat}
    {s' : CloakedAgentState} {tr : List (Recipient × Nat)}
    (h : withdraw_private s vk pf wt acc vault amount = .ok (s', tr)) :
    s' = s ∧
    tr = [(Recipient.feeRecipient, PRIVATE_OPERATION_FEE),
          (Recipient.destination, amount)] ∧
    s.is_private = true ∧
    (verify_zk_proof vk pf wt s.owner_commitment acc).result = .ok () ∧
    amount + PRIVATE_OPERATION_FEE ≤ vault ∧
    amount + PRIVATE_OPERATION_FEE < U64_BOUND := by
  unfold withdraw_private at h
  split at h
  next => exact Except.noConfusion h
  next hpriv =>
  split at h
  next => exact Except.noConfusion h
  next u hv =>
  split at h
  next => exact Except.noConfusion h
  next total_required hadd =>
  split at h
  next => exact Except.noConfusion h
  next hbal =>
  cases h
  obtain ⟨haddEq, haddLt⟩ := checked_add_eq_some hadd
  refine ⟨rfl, rfl, by simpa using hpriv, ?_, by omega, haddLt⟩
  cases u
  exact hv

/-! ## The limit invariant and reachability -/

/-- The limit predicates of the data-model invariant: each running counter
stays within its configured cap whenever that cap is nonzero. -/
def LimitsInv (s : CloakedAgentState) : Prop :=
  (s.total_limit > 0 → s.total_spent ≤ s.total_limit) ∧
  (s.daily_limit > 0 → s.daily_spent ≤ s.daily_limit)

theorem create_cloaked_agent_private_ok {c : List Nat} {dk m d t : Nat}
    {e now : Int} {bump : Nat} {s : CloakedAgentState}
    (h : create_cloaked_agent_private c dk m d t e now bump = .ok s) :
    s = { owner := none
          owner_commitment := c
          delegate := dk
          max_per_tx := m
          daily_limit := d
          total_limit := t
          expires_at := e
          frozen := false
          total_spent := 0
          daily_spent := 0
          last_day := now.tdiv SECONDS_PER_DAY
          bump := bump
          created_at := now } ∧ c ≠ List.replicate 32 0 := by
  unfold create_cloaked_agent_private at h
  split at h
  next => exact Except.noConfusion h
  next hc =>
  cases h
  exact ⟨rfl, hc⟩

theorem spend_preserves_inv {s : CloakedAgentState} {now : Int}
    {vault amount : Nat} {s' : CloakedAgentState}
    {tr : List (Recipient × Nat)}
    (h : spend s now vault amount = .ok (s', tr)) : LimitsInv s' := by
  obtain ⟨hs, -, -, -, -, hdg, htg, -⟩ := spend_ok_spec h
  subst hs
  have hdl := rollover_daily_limit s now
  have htl := rollover_total_limit s now
  have hts := rollover_total_spent s now
  constructor
  · intro hp
    simp only [] at hp ⊢
    rw [htl] at hp
    rw [hts, htl]
    exact htg hp
  · intro hp
    simp only [] at hp ⊢
    rw [hdl] at hp
    rw [hdl]
    exact hdg hp

/-- States reachable from account creation by any sequence of successful
operations other than the two constraint-update instructions (`close`
destroys the account, so it produces no successor state). -/
inductive ReachableNoConstraintUpdate : CloakedAgentState → Prop where
  | created : ∀ ownerKey delegate m d t : Nat, ∀ e now : Int, ∀ bump : Nat,
      ReachableNoConstraintUpdate
        (create_cloaked_agent ownerKey delegate m d t e now bump)
  | createdPrivate : ∀ c : List Nat, ∀ delegate m d t : Nat, ∀ e now : Int,
      ∀ bump : Nat, ∀ s : CloakedAgentState,
      create_cloaked_agent_private c delegate m d t e now bump = .ok s →
      ReachableNoConstraintUpdate s
  | stepSpend : ∀ s now vault amount s' tr, ReachableNoConstraintUpdate s →
      spend s now vault amount = .ok (s', tr) →
      ReachableNoConstraintUpdate s'
  | stepFreeze : ∀ s k s', ReachableNoConstraintUpdate s →
      freeze s k = .ok s' → ReachableNoConstraintUpdate s'
  | stepUnfreeze : ∀ s k s', ReachableNoConstraintUpdate s →
      unfreeze s k = .ok s' → ReachableNoConstraintUpdate s'
  | stepWithdraw : ∀ s k vault amount s' tr, ReachableNoConstraintUpdate s →
      withdraw s k vault amount = .ok (s', tr) →
      ReachableNoConstraintUpdate s'
  | stepFreezePrivate : ∀ s vk : _, ∀ pf wt : List Nat, ∀ acc vault s' tr,
      ReachableNoConstraintUpdate s →
      freeze_private s vk pf wt acc vault = .ok (s', tr) →
      ReachableNoConstraintUpdate s'
  | stepUnfreezePrivate : ∀ s vk : _, ∀ pf wt : List Nat, ∀ acc vault s' tr,
      ReachableNoConstraintUpdate s →
      unfreeze_private s vk pf wt acc vault = .ok (s', tr) →
      ReachableNoConstraintUpdate s'
  | stepWithdrawPrivate : ∀ s vk : _, ∀ pf wt : List Nat,
      ∀ acc vault amount s' tr, ReachableNoConstraintUpdate s →
      withdraw_private s vk pf wt acc vault amount = .ok (s', tr) →
      ReachableNoConstraintUpdate s'

theorem reachable_inv {s : CloakedAgentState}
    (h : ReachableNoConstraintUpdate s) : LimitsInv s := by
  induction h with
  | created ownerKey delegate m d t e now bump =>
    exact ⟨fun _ => Nat.zero_le _, fun _ => Nat.zero_le _⟩
  | createdPrivate c delegate m d t e now bump s hok =>
    obtain ⟨hs, -⟩ := create_cloaked_agent_private_ok hok
    subst hs
    exact ⟨fun _ => Nat.zero_le _, fun _ => Nat.zero_le _⟩
  | stepSpend s now vault amount s' tr _ hok _ =>
    exact spend_preserves_inv hok
  | stepFreeze s k s' _ hok ih =>
    obtain ⟨hs, -, -⟩ := freeze_ok_spec hok
    subst hs
    exact ih
  | stepUnfreeze s k s' _ hok ih =>
    obtain ⟨hs, -, -⟩ := unfreeze_ok_spec hok
    subst hs
    exact ih
  | stepWithdraw s k vault amount s' tr _ hok ih =>
    obtain ⟨hs, -⟩ := withdraw_ok_spec hok
    subst hs
    exact ih
  | stepFreezePrivate s vk pf wt acc vault s' tr _ hok ih =>
    obtain ⟨hs, -, -, -, -⟩ := freeze_private_ok_spec hok
    subst hs
    exact ih
  | stepUnfreezePrivate s vk pf wt acc vault s' tr _ hok ih =>
    obtain ⟨hs, -, -, -, -⟩ := unfreeze_private_ok_spec hok
    subst hs
    exact ih
  | stepWithdrawPrivate s vk pf wt acc vault amount s' tr _ hok ih =>
    obtain ⟨hs, -⟩ := withdraw_private_ok_spec hok
    subst hs
    exact ih

/-! ## Constructive success lemmas -/

theorem withdraw_eq_ok {s : CloakedAgentState} {k vault amount : Nat}
    (hk : s.owner = some k) (hb : amount ≤ vault) :
    withdraw s k vault amount = .ok (s, [(Recipient.destination, amount)]) := by
  unfold withdraw
  rw [if_neg (by simp [CloakedAgentState.is_private, hk]),
      if_neg (by simp [hk]), if_neg (by omega)]

theorem withdraw_private_eq_ok {s : CloakedAgentState} {vk : Nat}
    {pf wt : List Nat} {acc : Bool} {vault amount : Nat}
    (hp : s.owner = none)
    (hv : (verify_zk_proof vk pf wt s.owner_commitment acc).result = .ok ())
    (hb : amount + PRIVATE_OPERATION_FEE ≤ vault)
    (hlt : amount + PRIVATE_OPERATION_FEE < U64_BOUND) :
    withdraw_private s vk pf wt acc vault amount =
      .ok (s, [(Recipient.feeRecipient, PRIVATE_OPERATION_FEE),
               (Recipient.destination, amount)]) := by
  unfold withdraw_private
  rw [if_neg (by simp [CloakedAgentState.is_private, hp])]
  rw [hv]
  simp only [checked_add_of_lt hlt]
  rw [if_neg (by omega)]

theorem rollover_daily_le {s : CloakedAgentState} (now : Int)
    (h : s.daily_spent ≤ s.total_spent) :
    (rollover s now).daily_spent ≤ (rollover s now).total_spent := by
  unfold rollover
  split
  · exact Nat.zero_le _
  · exact h

/-! ## Claims -/

/-- C1: after every successful `spend(amount)` the post-state satisfies
`daily_spent ≤ daily_limit` whenever `daily_limit > 0` and
`total_spent ≤ total_limit` whenever `total_limit > 0`; `daily_spent ≤
total_spent` (assuming the pre-state satisfied this always-invariant); and
`total_spent` never decreases across the call. -/
theorem C1_spend_postconditions {s : CloakedAgentState} {now : Int}
    {vault amount : Nat} {s' : CloakedAgentState}
    {tr : List (Recipient × Nat)}
    (hpre : s.daily_spent ≤ s.total_spent)
    (h : spend s now vault amount = .ok (s', tr)) :
    (s'.daily_limit > 0 → s'.daily_spent ≤ s'.daily_limit) ∧
    (s'.total_limit > 0 → s'.total_spent ≤ s'.total_limit) ∧
    s'.daily_spent ≤ s'.total_spent ∧
    s.total_spent ≤ s'.total_spent := by
  obtain ⟨hinvT, hinvD⟩ := spend_preserves_inv h
  obtain ⟨hs, -, -, -, -, -, -, -, -, -, -⟩ := spend_ok_spec h
  subst hs
  have hdle := rollover_daily_le now hpre
  have hts := rollover_total_spent s now
  refine ⟨hinvD, hinvT, ?_, ?_⟩
  · simp only []
    omega
  · simp only []
    omega

/-- C1 witness: a concrete successful spend of 50 against limits
(100, 500, 1000) from a fresh account. -/
theorem C1_spend_postconditions_witness :
    (create_cloaked_agent 1 2 100 500 1000 0 0 0).daily_spent ≤
      (create_cloaked_agent 1 2 100 500 1000 0 0 0).total_spent ∧
    (({ create_cloaked_agent 1 2 100 500 1000 0 0 0 with
        daily_spent := 50, total_spent := 50 } :
        CloakedAgentState).daily_limit > 0 →
      ({ create_cloaked_agent 1 2 100 500 1000 0 0 0 with
         daily_spent := 50, total_spent := 50 } :
         CloakedAgentState).daily_spent ≤
        ({ create_cloaked_agent 1 2 100 500 1000 0 0 0 with
           daily_spent := 50, total_spent := 50 } :
           CloakedAgentState).daily_limit) ∧
    (({ create_cloaked_agent 1 2 100 500 1000 0 0 0 with
        daily_spent := 50, total_spent := 50 } :
        CloakedAgentState).total_limit > 0 →
      ({ create_cloaked_agent 1 2 100 500 1000 0 0 0 with
         daily_spent := 50, total_spent := 50 } :
         CloakedAgentState).total_spent ≤
        ({ create_cloaked_agent 1 2 100 500 1000 0 0 0 with
           daily_spent := 50, total_spent := 50 } :
           CloakedAgentState).total_limit) ∧
    ({ create_cloaked_agent 1 2 100 500 1000 0 0 0 with
       daily_spent := 50, total_spent := 50 } :
       CloakedAgentState).daily_spent ≤
      ({ create_cloaked_agent 1 2 100 500 1000 0 0 0 with
         daily_spent := 50, total_spent := 50 } :
         CloakedAgentState).total_spent ∧
    (create_cloaked_agent 1 2 100 500 1000 0 0 0).total_spent ≤
      ({ create_cloaked_agent 1 2 100 500 1000 0 0 0 with
         daily_spent := 50, total_spent := 50 } :
         CloakedAgentState).total_spent := by
  have h : spend (create_cloaked_agent 1 2 100 500 1000 0 0 0) 0 1000000 50 =
      .ok ({ create_cloaked_agent 1 2 100 500 1000 0 0 0 with
             daily_spent := 50, total_spent := 50 },
           [(Recipient.destination, 50), (Recipient.feePayer, 10000)]) := by
    rfl
  exact ⟨by decide, C1_spend_postconditions (by decide) h⟩

/-- C2 (amended): the predicates `total_spent ≤ total_limit` (when
`total_limit > 0`) and `daily_spent ≤ daily_limit` (when `daily_limit > 0`)
hold in every state reachable from account creation by any sequence of
successful spend, freeze, unfreeze and withdraw operations (in either
mode).  The original claim — that the two constraint-update instructions
also preserve these predicates — is false: see the counterexample. -/
theorem C2_reachable_limits {s : CloakedAgentState}
    (h : ReachableNoConstraintUpdate s) :
    (s.total_limit > 0 → s.total_spent ≤ s.total_limit) ∧
    (s.daily_limit > 0 → s.daily_spent ≤ s.daily_limit) :=
  reachable_inv h

/-- C2 witness: the limit predicates at a freshly created account. -/
theorem C2_reachable_limits_witness :
    ((create_cloaked_agent 1 2 0 500 1000 0 0 0).total_limit > 0 →
      (create_cloaked_agent 1 2 0 500 1000 0 0 0).total_spent ≤
        (create_cloaked_agent 1 2 0 500 1000 0 0 0).total_limit) ∧
    ((create_cloaked_agent 1 2 0 500 1000 0 0 0).daily_limit > 0 →
      (create_cloaked_agent 1 2 0 500 1000 0 0 0).daily_spent ≤
        (create_cloaked_agent 1 2 0 500 1000 0 0 0).daily_limit) :=
  C2_reachable_limits (ReachableNoConstraintUpdate.created 1 2 0 500 1000 0 0 0)

/-- C2 counterexample: from a freshly created unlimited account, a
successful `spend(100)` followed by a successful
`update_constraints(daily_limit := 50)` reaches a state with
`daily_limit = 50 > 0` but `daily_spent = 100 > 50`: `update_constraints`
does not preserve the limit predicates when it sets a nonzero limit below
the current counter. -/
theorem C2_update_constraints_counterexample :
    spend (create_cloaked_agent 1 2 0 0 0 0 0 0) 0 1000000 100 =
      .ok ({ create_cloaked_agent 1 2 0 0 0 0 0 0 with
             daily_spent := 100, total_spent := 100 },
           [(Recipient.destination, 100), (Recipient.feePayer, 10000)]) ∧
    update_constraints ({ create_cloaked_agent 1 2 0 0 0 0 0 0 with
        daily_spent := 100, total_spent := 100 }) 1 none (some 50) none none =
      .ok ({ create_cloaked_agent 1 2 0 0 0 0 0 0 with
             daily_spent := 100, total_spent := 100, daily_limit := 50 }) ∧
    ({ create_cloaked_agent 1 2 0 0 0 0 0 0 with
       daily_spent := 100, total_spent := 100, daily_limit := 50 } :
       CloakedAgentState).daily_limit > 0 ∧
    ¬ (({ create_cloaked_agent 1 2 0 0 0 0 0 0 with
          daily_spent := 100, total_spent := 100, daily_limit := 50 } :
          CloakedAgentState).daily_spent ≤
        ({ create_cloaked_agent 1 2 0 0 0 0 0 0 with
           daily_spent := 100, total_spent := 100, daily_limit := 50 } :
           CloakedAgentState).daily_limit) := by
  refine ⟨rfl, rfl, by decide, by decide⟩

/-- C3: invoking a Direct-mode owner-privileged instruction (withdraw,
freeze, unfreeze, update_constraints, close) on a Commitment-mode account
fails with `IsPrivateMode`, and invoking a Commitment-mode instruction
(the `_private` variants) on a Direct-mode account fails with
`NotPrivateMode` — always, before any other check.  In this embedding an
`Except.error` result is a full transaction abort, so the account state
and the vault balance are unchanged by construction. -/
theorem C3_wrong_mode_rejected {s : CloakedAgentState}
    {k vault amount vk : Nat} {pf wt : List Nat} {acc : Bool}
    {m d t : Option Nat} {e : Option Int} :
    (s.is_private = true →
      withdraw s k vault amount = .error .IsPrivateMode ∧
      freeze s k = .error .IsPrivateMode ∧
      unfreeze s k = .error .IsPrivateMode ∧
      update_constraints s k m d t e = .error .IsPrivateMode ∧
      close_cloaked_agent s k vault = .error .IsPrivateMode) ∧
    (s.is_private = false →
      freeze_private s vk pf wt acc vault = .error .NotPrivateMode ∧
      unfreeze_private s vk pf wt acc vault = .error .NotPrivateMode ∧
      update_constraints_private s vk pf wt acc vault m d t e =
        .error .NotPrivateMode ∧
      close_cloaked_agent_private s vk pf wt acc vault =
        .error .NotPrivateMode ∧
      withdraw_private s vk pf wt acc vault amount =
        .error .NotPrivateMode) := by
  constructor
  · intro hp
    refine ⟨?_, ?_, ?_, ?_, ?_⟩ <;>
      simp [withdraw, freeze, unfreeze, update_constraints,
        close_cloaked_agent, hp]
  · intro hp
    refine ⟨?_, ?_, ?_, ?_, ?_⟩ <;>
      simp [freeze_private, unfreeze_private, update_constraints_private,
        close_cloaked_agent_private, withdraw_private, hp]

/-- C3 witness: a Direct withdraw on a private-mode account and a private
freeze on a Direct-mode account, both at concrete inputs. -/
theorem C3_wrong_mode_rejected_witness :
    withdraw ({ create_cloaked_agent 1 2 0 0 0 0 0 0 with
        owner := none, owner_commitment := List.replicate 32 5 }) 1 0 0 =
      .error .IsPrivateMode ∧
    freeze_private (create_cloaked_agent 1 2 0 0 0 0 0 0)
        ZK_VERIFIER_PROGRAM_ID [] [] true 0 = .error .NotPrivateMode := by
  have h1 := (@C3_wrong_mode_rejected
    ({ create_cloaked_agent 1 2 0 0 0 0 0 0 with
       owner := none, owner_commitment := List.replicate 32 5 })
    1 0 0 ZK_VERIFIER_PROGRAM_ID [] [] true none none none none).1 (by decide)
  have h2 := (@C3_wrong_mode_rejected (create_cloaked_agent 1 2 0 0 0 0 0 0)
    1 0 0 ZK_VERIFIER_PROGRAM_ID [] [] true none none none none).2 (by decide)
  exact ⟨h1.1, h2.1⟩

/-- C4: in `verify_zk_proof`, a witness shorter than
`WITNESS_HEADER_SIZE + COMMITMENT_SIZE` (44 bytes) fails before the
verifier CPI (with `InvalidProof` when the verifier program id is the
expected one); a commitment field at offset `WITNESS_HEADER_SIZE` that
differs from the account's commitment fails with `CommitmentMismatch`
before the CPI; the CPI is reached only when all local checks pass; and a
verifier rejection makes the whole call fail. -/
theorem C4_verify_local_checks_first {vk : Nat} {pf wt c : List Nat}
    {acc : Bool} :
    (wt.length < MIN_WITNESS_SIZE →
      (verify_zk_proof vk pf wt c acc).result.isOk = false ∧
      (verify_zk_proof vk pf wt c acc).verifierInvoked = false) ∧
    (vk = ZK_VERIFIER_PROGRAM_ID → wt.length < MIN_WITNESS_SIZE →
      (verify_zk_proof vk pf wt c acc).result = .error .InvalidProof) ∧
    (vk = ZK_VERIFIER_PROGRAM_ID → MIN_WITNESS_SIZE ≤ wt.length →
      (wt.drop WITNESS_HEADER_SIZE).take COMMITMENT_SIZE ≠ c →
      (verify_zk_proof vk pf wt c acc).result = .error .CommitmentMismatch ∧
      (verify_zk_proof vk pf wt c acc).verifierInvoked = false) ∧
    ((verify_zk_proof vk pf wt c acc).verifierInvoked = true →
      vk = ZK_VERIFIER_PROGRAM_ID ∧ MIN_WITNESS_SIZE ≤ wt.length ∧
      (wt.drop WITNESS_HEADER_SIZE).take COMMITMENT_SIZE = c) ∧
    (acc = false → (verify_zk_proof vk pf wt c acc).result.isOk = false) := by
  refine ⟨?_, ?_, ?_, ?_, ?_⟩
  · intro hlen
    unfold verify_zk_proof
    split_ifs <;> simp_all [Except.isOk, Except.toBool]
  · intro hvk hlen
    unfold verify_zk_proof
    rw [if_neg (by simp [hvk]), if_pos hlen]
  · intro hvk hlen hne
    unfold verify_zk_proof
    rw [if_neg (by simp [hvk]), if_neg (by omega), if_pos hne]
    exact ⟨rfl, rfl⟩
  · intro hinv
    unfold verify_zk_proof at hinv
    split_ifs at hinv <;> simp_all
  · intro hacc
    subst hacc
    unfold verify_zk_proof
    split_ifs <;> simp_all [Except.isOk, Except.toBool]

/-- C4 witness: a 44-byte witness whose commitment field disagrees with the
account commitment is rejected with `CommitmentMismatch` without reaching
the verifier, and a short witness is rejected with `InvalidProof`. -/
theorem C4_verify_local_checks_first_witness :
    (verify_zk_proof ZK_VERIFIER_PROGRAM_ID [] (List.replicate 44 1)
        (List.replicate 32 2) true).result = .error .CommitmentMismatch ∧
    (verify_zk_proof ZK_VERIFIER_PROGRAM_ID [] (List.replicate 44 1)
        (List.replicate 32 2) true).verifierInvoked = false ∧
    (verify_zk_proof ZK_VERIFIER_PROGRAM_ID [] (List.replicate 10 1)
        (List.replicate 32 2) true).result = .error .InvalidProof := by
  have h1 := (@C4_verify_local_checks_first ZK_VERIFIER_PROGRAM_ID []
    (List.replicate 44 1) (List.replicate 32 2) true).2.2.1 rfl
    (by decide) (by decide)
  have h2 := (@C4_verify_local_checks_first ZK_VERIFIER_PROGRAM_ID []
    (List.replicate 10 1) (List.replicate 32 2) true).2.1 rfl (by decide)
  exact ⟨h1.1, h1.2, h2⟩

/-- C5: `withdraw` on a Direct-mode account needs only the owner's key and
a sufficient balance — no freeze, expiry, per-tx, daily or total check
appears, the state `s` is arbitrary (it may be frozen and expired), and it
is returned unchanged (counters untouched).  Likewise `withdraw_private`
on a Commitment-mode account needs only a passing proof and
`amount + PRIVATE_OPERATION_FEE` of balance, again for arbitrary frozen or
expired `s`, returned unchanged. -/
theorem C5_owner_withdraw_bypass {s : CloakedAgentState}
    {k vault amount : Nat} {pf wt : List Nat} :
    (s.owner = some k → amount ≤ vault →
      withdraw s k vault amount =
        .ok (s, [(Recipient.destination, amount)])) ∧
    (s.owner = none →
      (verify_zk_proof ZK_VERIFIER_PROGRAM_ID pf wt s.owner_commitment
        true).result = .ok () →
      amount + PRIVATE_OPERATION_FEE ≤ vault →
      amount + PRIVATE_OPERATION_FEE < U64_BOUND →
      withdraw_private s ZK_VERIFIER_PROGRAM_ID pf wt true vault amount =
        .ok (s, [(Recipient.feeRecipient, PRIVATE_OPERATION_FEE),
                 (Recipient.destination, amount)])) :=
  ⟨fun hk hb => withdraw_eq_ok hk hb,
   fun hp hv hb hlt => withdraw_private_eq_ok hp hv hb hlt⟩

/-- C5 witness: a frozen, expired Direct account still honours the owner's
withdraw, and a frozen, expired Commitment account still honours
`withdraw_private` with a valid proof. -/
theorem C5_owner_withdraw_bypass_witness :
    withdraw ({ create_cloaked_agent 1 2 0 0 0 5 10 0 with frozen := true })
        1 1000000 100 =
      .ok ({ create_cloaked_agent 1 2 0 0 0 5 10 0 with frozen := true },
           [(Recipient.destination, 100)]) ∧
    withdraw_private ({ create_cloaked_agent 1 2 0 0 0 5 10 0 with
        owner := none, owner_commitment := List.replicate 32 9,
        frozen := true }) ZK_VERIFIER_PROGRAM_ID []
        (List.replicate 12 0 ++ List.replicate 32 9) true 1000000 100 =
      .ok ({ create_cloaked_agent 1 2 0 0 0 5 10 0 with
             owner := none, owner_commitment := List.replicate 32 9,
             frozen := true },
           [(Recipient.feeRecipient, 50000), (Recipient.destination, 100)]) := by
  have h1 := (@C5_owner_withdraw_bypass
    ({ create_cloaked_agent 1 2 0 0 0 5 10 0 with frozen := true })
    1 1000000 100 [] []).1 (by decide) (by decide)
  have h2 := (@C5_owner_withdraw_bypass
    ({ create_cloaked_agent 1 2 0 0 0 5 10 0 with
       owner := none, owner_commitment := List.replicate 32 9,
       frozen := true }) 1 1000000 100 []
    (List.replicate 12 0 ++ List.replicate 32 9)).2 (by decide) (by rfl)
    (by decide) (by decide)
  exact ⟨h1, h2⟩

/-- C6 (amended): during a successful `spend`, with
`currentEpoch = now / SECONDS_PER_DAY` computed with Rust's `i64` division
(truncation toward zero, `Int.tdiv` — for nonnegative `now` this equals the
floor the claim speaks of): if `currentEpoch > last_day` the daily counter
is reset and then incremented, so afterwards `daily_spent = amount` and
`last_day = currentEpoch`, by one formula whether one or many days
elapsed; if `currentEpoch ≤ last_day` then `last_day` is unchanged and
`daily_spent` is simply incremented.  The original claim's `floor`
diverges from the code at negative timestamps: see the counterexample. -/
theorem C6_day_rollover {s : CloakedAgentState} {now : Int}
    {vault amount : Nat} {s' : CloakedAgentState}
    {tr : List (Recipient × Nat)}
    (h : spend s now vault amount = .ok (s', tr)) :
    (s.last_day < now.tdiv SECONDS_PER_DAY →
      s'.last_day = now.tdiv SECONDS_PER_DAY ∧ s'.daily_spent = amount) ∧
    (now.tdiv SECONDS_PER_DAY ≤ s.last_day →
      s'.last_day = s.last_day ∧
      s'.daily_spent = s.daily_spent + amount) := by
  obtain ⟨hs, -, -, -, -, -, -, -, -, -, -⟩ := spend_ok_spec h
  subst hs
  constructor
  · intro hlt
    obtain ⟨hd0, hld⟩ := rollover_of_gt hlt
    simp only []
    exact ⟨hld, by omega⟩
  · intro hle
    have hr := rollover_of_le hle
    simp only []
    rw [hr]
    exact ⟨rfl, rfl⟩

/-- C6 witness: a 30-day gap collapses to a single reset: spending 7 at
`now = 30 * 86400` from an account with `last_day = 0` leaves
`daily_spent = 7` and `last_day = 30`. -/
theorem C6_day_rollover_witness :
    (create_cloaked_agent 1 2 0 0 0 0 0 0).last_day <
      Int.tdiv 2592000 SECONDS_PER_DAY ∧
    ({ create_cloaked_agent 1 2 0 0 0 0 0 0 with
       daily_spent := 7, total_spent := 7, last_day := 30 } :
       CloakedAgentState).last_day = Int.tdiv 2592000 SECONDS_PER_DAY ∧
    ({ create_cloaked_agent 1 2 0 0 0 0 0 0 with
       daily_spent := 7, total_spent := 7, last_day := 30 } :
       CloakedAgentState).daily_spent = 7 := by
  have h : spend (create_cloaked_agent 1 2 0 0 0 0 0 0) 2592000 1000000 7 =
      .ok ({ create_cloaked_agent 1 2 0 0 0 0 0 0 with
             daily_spent := 7, total_spent := 7, last_day := 30 },
           [(Recipient.destination, 7), (Recipient.feePayer, 10000)]) := by
    rfl
  have hc := (C6_day_rollover h).1 (by decide)
  exact ⟨by decide, hc.1, hc.2⟩

/-- C6 counterexample: the claim computes the epoch as
`floor(now / secondsPerDay)`, but the code uses Rust `i64` division, which
truncates toward zero.  At `now = -1` with `last_day = -1` the floor epoch
is `-1 ≤ last_day`, so the claim says neither `daily_spent` nor `last_day`
changes — yet the successful spend resets `daily_spent` from 5 to 0 and
moves `last_day` from `-1` to `0`. -/
theorem C6_floor_rollover_counterexample :
    spend ({ create_cloaked_agent 1 2 0 0 0 0 (-86400) 0 with
        daily_spent := 5, total_spent := 5 }) (-1) 1000000 0 =
      .ok ({ create_cloaked_agent 1 2 0 0 0 0 (-86400) 0 with
             daily_spent := 0, total_spent := 5, last_day := 0 },
           [(Recipient.destination, 0), (Recipient.feePayer, 10000)]) ∧
    Int.fdiv (-1) SECONDS_PER_DAY ≤
      ({ create_cloaked_agent 1 2 0 0 0 0 (-86400) 0 with
         daily_spent := 5, total_spent := 5 } :
         CloakedAgentState).last_day ∧
    ({ create_cloaked_agent 1 2 0 0 0 0 (-86400) 0 with
       daily_spent := 0, total_spent := 5, last_day := 0 } :
       CloakedAgentState).last_day ≠
      ({ create_cloaked_agent 1 2 0 0 0 0 (-86400) 0 with
         daily_spent := 5, total_spent := 5 } :
         CloakedAgentState).last_day ∧
    ({ create_cloaked_agent 1 2 0 0 0 0 (-86400) 0 with
       daily_spent := 0, total_spent := 5, last_day := 0 } :
       CloakedAgentState).daily_spent ≠
      ({ create_cloaked_agent 1 2 0 0 0 0 (-86400) 0 with
         daily_spent := 5, total_spent := 5 } :
         CloakedAgentState).daily_spent := by
  refine ⟨rfl, by decide, by decide, by decide⟩

theorem checkDaily_overflow {s : CloakedAgentState} {amount : Nat}
    (h1 : s.daily_limit > 0) (h2 : U64_BOUND ≤ s.daily_spent + amount) :
    checkDaily s amount = .error .Overflow := by
  simp only [checkDaily, if_pos h1, checked_add, if_neg (by omega : ¬ s.daily_spent + amount < U64_BOUND)]

/-- C7: a `spend`, `withdraw` or `withdraw_private` whose required total
(principal plus the operation's fee — `SPEND_FEE_REIMBURSEMENT` for spend,
nothing for Direct withdraw, `PRIVATE_OPERATION_FEE` for private
withdraw) exceeds the vault balance never succeeds; and once every
preceding gate passes, the abort error is precisely
`InsufficientBalance`.  An abort carries no post-state in this embedding:
balance, `daily_spent`, `total_spent` and `last_day` are untouched. -/
theorem C7_balance_shortfall_aborts {s : CloakedAgentState} {now : Int}
    {vault amount k vk : Nat} {pf wt : List Nat} {acc : Bool} :
    (vault < amount + SPEND_FEE_REIMBURSEMENT →
      (spend s now vault amount).isOk = false) ∧
    (vault < amount → (withdraw s k vault amount).isOk = false) ∧
    (vault < amount + PRIVATE_OPERATION_FEE →
      (withdraw_private s vk pf wt acc vault amount).isOk = false) ∧
    (s.frozen = false → (s.expires_at > 0 → now < s.expires_at) →
      (s.max_per_tx > 0 → amount ≤ s.max_per_tx) →
      s.daily_limit < U64_BOUND → s.total_limit < U64_BOUND →
      (s.daily_limit > 0 →
        (rollover s now).daily_spent + amount ≤ s.daily_limit) →
      (s.total_limit > 0 → s.total_spent + amount ≤ s.total_limit) →
      amount + SPEND_FEE_REIMBURSEMENT < U64_BOUND →
      vault < amount + SPEND_FEE_REIMBURSEMENT →
      spend s now vault amount = .error .InsufficientBalance) ∧
    (s.owner = some k → vault < amount →
      withdraw s k vault amount = .error .InsufficientBalance) := by
  refine ⟨?_, ?_, ?_, ?_, ?_⟩
  · intro hb
    cases hs : spend s now vault amount with
    | error e => rfl
    | ok v =>
      obtain ⟨s', tr⟩ := v
      obtain ⟨-, -, -, -, -, -, -, -, -, -, hle⟩ := spend_ok_spec hs
      exact absurd hle (by omega)
  · intro hb
    cases hs : withdraw s k vault amount with
    | error e => rfl
    | ok v =>
      obtain ⟨s', tr⟩ := v
      obtain ⟨-, -, -, -, hle⟩ := withdraw_ok_spec hs
      exact absurd hle (by omega)
  · intro hb
    cases hs : withdraw_private s vk pf wt acc vault amount with
    | error e => rfl
    | ok v =>
      obtain ⟨s', tr⟩ := v
      obtain ⟨-, -, -, -, hle, -⟩ := withdraw_private_ok_spec hs
      exact absurd hle (by omega)
  · intro hfz hexp hptx hdb htb hdg htg hflt hb
    unfold spend
    rw [if_neg (by simp [hfz]),
        if_neg (by rintro ⟨h1, h2⟩; have := hexp h1; omega),
        if_neg (by rintro ⟨h1, h2⟩; have := hptx h1; omega)]
    have hd : checkDaily (rollover s now) amount = .ok () := by
      apply checkDaily_eq_ok
      · rw [rollover_daily_limit]; exact hdb
      · rw [rollover_daily_limit]; exact hdg
    have ht : checkTotal (rollover s now) amount = .ok () := by
      apply checkTotal_eq_ok
      · rw [rollover_total_limit]; exact htb
      · rw [rollover_total_limit, rollover_total_spent]; exact htg
    simp only [hd, ht, checked_add_of_lt hflt, if_pos hb]
  · intro hk hb
    unfold withdraw
    rw [if_neg (by simp [CloakedAgentState.is_private, hk]),
        if_neg (by simp [hk]), if_pos hb]

/-- C7 witness: with a vault of 5 lamports, a spend of 50 and an owner
withdraw of 50 both abort with `InsufficientBalance`. -/
theorem C7_balance_shortfall_aborts_witness :
    spend (create_cloaked_agent 1 2 0 0 0 0 0 0) 0 5 50 =
      .error .InsufficientBalance ∧
    withdraw (create_cloaked_agent 1 2 0 0 0 0 0 0) 1 5 50 =
      .error .InsufficientBalance := by
  have h := @C7_balance_shortfall_aborts
    (create_cloaked_agent 1 2 0 0 0 0 0 0) 0 5 50 1 7 [] [] true
  exact ⟨h.2.2.2.1 (by decide) (by decide) (by decide) (by decide) (by decide)
      (by decide) (by decide) (by decide) (by decide),
    h.2.2.2.2 (by decide) (by decide)⟩

/-- C8: a `spend` for which the checked addition `daily_spent + amount`
(after the day rollover), `total_spent + amount`, or
`amount + SPEND_FEE_REIMBURSEMENT` leaves the `u64` range never succeeds;
when the preceding gates pass and the daily limit is active, the abort
error is precisely `Overflow`; and no operation ever stores a wrapped
counter: a successful spend stores the exact mathematical sums, both below
`2^64`, and freeze, unfreeze, constraint updates and withdraws leave both
counters untouched. -/
theorem C8_overflow_aborts {s : CloakedAgentState} {now : Int}
    {vault amount : Nat} :
    (U64_BOUND ≤ (rollover s now).daily_spent + amount →
      (spend s now vault amount).isOk = false) ∧
    (U64_BOUND ≤ s.total_spent + amount →
      (spend s now vault amount).isOk = false) ∧
    (U64_BOUND ≤ amount + SPEND_FEE_REIMBURSEMENT →
      (spend s now vault amount).isOk = false) ∧
    (s.frozen = false → (s.expires_at > 0 → now < s.expires_at) →
      (s.max_per_tx > 0 → amount ≤ s.max_per_tx) →
      s.daily_limit > 0 →
      U64_BOUND ≤ (rollover s now).daily_spent + amount →
      spend s now vault amount = .error .Overflow) ∧
    (∀ s' tr, spend s now vault amount = .ok (s', tr) →
      s'.daily_spent = (rollover s now).daily_spent + amount ∧
      s'.total_spent = s.total_spent + amount ∧
      s'.daily_spent < U64_BOUND ∧ s'.total_spent < U64_BOUND) ∧
    (∀ k s2, freeze s k = .ok s2 →
      s2.daily_spent = s.daily_spent ∧ s2.total_spent = s.total_spent) ∧
    (∀ k s2, unfreeze s k = .ok s2 →
      s2.daily_spent = s.daily_spent ∧ s2.total_spent = s.total_spent) ∧
    (∀ k : Nat, ∀ m d t : Option Nat, ∀ e : Option Int, ∀ s2,
      update_constraints s k m d t e = .ok s2 →
      s2.daily_spent = s.daily_spent ∧ s2.total_spent = s.total_spent) ∧
    (∀ k s2 tr2, withdraw s k vault amount = .ok (s2, tr2) →
      s2.daily_spent = s.daily_spent ∧ s2.total_spent = s.total_spent) := by
  refine ⟨?_, ?_, ?_, ?_, ?_, ?_, ?_, ?_, ?_⟩
  · intro hof
    cases hs : spend s now vault amount with
    | error e => rfl
    | ok v =>
      obtain ⟨s', tr⟩ := v
      obtain ⟨-, -, -, -, -, -, -, hlt, -, -, -⟩ := spend_ok_spec hs
      exact absurd hlt (by omega)
  · intro hof
    cases hs : spend s now vault amount with
    | error e => rfl
    | ok v =>
      obtain ⟨s', tr⟩ := v
      obtain ⟨-, -, -, -, -, -, -, -, hlt, -, -⟩ := spend_ok_spec hs
      exact absurd hlt (by omega)
  · intro hof
    cases hs : spend s now vault amount with
    | error e => rfl
    | ok v =>
      obtain ⟨s', tr⟩ := v
      obtain ⟨-, -, -, -, -, -, -, -, -, hlt, -⟩ := spend_ok_spec hs
      exact absurd hlt (by omega)
  · intro hfz hexp hptx hdl hof
    unfold spend
    rw [if_neg (by simp [hfz]),
        if_neg (by rintro ⟨h1, h2⟩; have := hexp h1; omega),
        if_neg (by rintro ⟨h1, h2⟩; have := hptx h1; omega)]
    have hd : checkDaily (rollover s now) amount = .error .Overflow := by
      apply checkDaily_overflow
      · rw [rollover_daily_limit]; exact hdl
      · exact hof
    simp only [hd]
  · intro s' tr hs
    obtain ⟨hseq, -, -, -, -, -, -, hdlt, htlt, -, -⟩ := spend_ok_spec hs
    subst hseq
    have hts := rollover_total_spent s now
    refine ⟨rfl, by simp only []; omega, by simp only []; omega,
      by simp only []; omega⟩
  · intro k s2 hs
    obtain ⟨hseq, -, -⟩ := freeze_ok_spec hs
    subst hseq
    exact ⟨rfl, rfl⟩
  · intro k s2 hs
    obtain ⟨hseq, -, -⟩ := unfreeze_ok_spec hs
    subst hseq
    exact ⟨rfl, rfl⟩
  · intro k m d t e s2 hs
    obtain ⟨hseq, -, -⟩ := update_constraints_ok_spec hs
    subst hseq
    exact ⟨rfl, rfl⟩
  · intro k s2 tr2 hs
    obtain ⟨hseq, -⟩ := withdraw_ok_spec hs
    subst hseq
    exact ⟨rfl, rfl⟩

/-- C8 witness: with `daily_spent = 2^64 - 1` and an active daily limit, a
spend of 1 aborts with `Overflow`. -/
theorem C8_overflow_aborts_witness :
    spend ({ create_cloaked_agent 1 2 0 10 0 0 0 0 with
        daily_spent := 18446744073709551615 }) 0 1000000 1 =
      .error .Overflow := by
  have h := @C8_overflow_aborts
    ({ create_cloaked_agent 1 2 0 10 0 0 0 0 with
       daily_spent := 18446744073709551615 }) 0 1000000 1
  exact h.2.2.2.1 (by decide) (by decide) (by decide) (by decide) (by decide)

/-- C9: a successful `spend` issues exactly two transfers, principal to the
destination first and then the (smaller) spend-fee reimbursement to the
fee payer; every successful privileged Commitment-mode operation issues
the (larger) privileged fee to the fee recipient first, followed — for
`withdraw_private` and `close_cloaked_agent_private` — by the remaining
principal to the destination. -/
theorem C9_transfer_ordering {s : CloakedAgentState} {now : Int}
    {vault amount vk : Nat} {pf wt : List Nat} {acc : Bool}
    {m d t : Option Nat} {e : Option Int} :
    (∀ s' tr, spend s now vault amount = .ok (s', tr) →
      tr = [(Recipient.destination, amount),
            (Recipient.feePayer, SPEND_FEE_REIMBURSEMENT)]) ∧
    (∀ s' tr, freeze_private s vk pf wt acc vault = .ok (s', tr) →
      tr = [(Recipient.feeRecipient, PRIVATE_OPERATION_FEE)]) ∧
    (∀ s' tr, unfreeze_private s vk pf wt acc vault = .ok (s', tr) →
      tr = [(Recipient.feeRecipient, PRIVATE_OPERATION_FEE)]) ∧
    (∀ s' tr, update_constraints_private s vk pf wt acc vault m d t e =
        .ok (s', tr) →
      tr = [(Recipient.feeRecipient, PRIVATE_OPERATION_FEE)]) ∧
    (∀ s' tr, withdraw_private s vk pf wt acc vault amount = .ok (s', tr) →
      tr = [(Recipient.feeRecipient, PRIVATE_OPERATION_FEE),
            (Recipient.destination, amount)]) ∧
    (∀ tr, close_cloaked_agent_private s vk pf wt acc vault = .ok tr →
      tr = (Recipient.feeRecipient, PRIVATE_OPERATION_FEE) ::
        (if vault - PRIVATE_OPERATION_FEE > 0 then
          [(Recipient.destination, vault - PRIVATE_OPERATION_FEE)]
         else [])) := by
  refine ⟨?_, ?_, ?_, ?_, ?_, ?_⟩
  · intro s' tr hs
    exact (spend_ok_spec hs).2.1
  · intro s' tr hs
    exact (freeze_private_ok_spec hs).2.1
  · intro s' tr hs
    exact (unfreeze_private_ok_spec hs).2.1
  · intro s' tr hs
    exact (update_constraints_private_ok_spec hs).2.1
  · intro s' tr hs
    exact (withdraw_private_ok_spec hs).2.1
  · intro tr hs
    exact (close_cloaked_agent_private_ok_spec hs).1

/-- C9 witness: concrete transfer lists for a spend (principal first, fee
second) and a private withdraw (fee first, principal second). -/
theorem C9_transfer_ordering_witness :
    [(Recipient.destination, (100 : Nat)),
     (Recipient.feePayer, SPEND_FEE_REIMBURSEMENT)] =
      [(Recipient.destination, 100), (Recipient.feePayer, 10000)] ∧
    [(Recipient.feeRecipient, PRIVATE_OPERATION_FEE),
     (Recipient.destination, (100 : Nat))] =
      [(Recipient.feeRecipient, 50000), (Recipient.destination, 100)] := by
  have h1 := (@C9_transfer_ordering (create_cloaked_agent 1 2 0 0 0 0 0 0)
    0 1000000 100 ZK_VERIFIER_PROGRAM_ID [] [] true none none none
    none).1 ({ create_cloaked_agent 1 2 0 0 0 0 0 0 with
      daily_spent := 100, total_spent := 100 })
    [(Recipient.destination, 100), (Recipient.feePayer, 10000)] rfl
  have h2 := (@C9_transfer_ordering
    ({ create_cloaked_agent 1 2 0 0 0 0 0 0 with
       owner := none, owner_commitment := List.replicate 32 9 })
    0 1000000 100 ZK_VERIFIER_PROGRAM_ID []
    (List.replicate 12 0 ++ List.replicate 32 9) true none none none
    none).2.2.2.2.1 ({ create_cloaked_agent 1 2 0 0 0 0 0 0 with
      owner := none, owner_commitment := List.replicate 32 9 })
    [(Recipient.feeRecipient, 50000), (Recipient.destination, 100)] (by rfl)
  exact ⟨h1.symm, h2.symm⟩

/-- C10: a Direct-mode `withdraw` deducts no fee — it succeeds exactly when
the caller is the recorded owner and the vault holds at least `amount`
(contrast `withdraw_private`, whose success forces
`amount + PRIVATE_OPERATION_FEE ≤ vault`); on success it transfers exactly
`amount` to the destination and returns every field of the agent state
unchanged. -/
theorem C10_withdraw_feeless_frame {s : CloakedAgentState}
    {k vault amount vk : Nat} {pf wt : List Nat} {acc : Bool} :
    ((withdraw s k vault amount).isOk = true ↔
      (s.owner = some k ∧ amount ≤ vault)) ∧
    (∀ s' tr, withdraw s k vault amount = .ok (s', tr) →
      s' = s ∧ tr = [(Recipient.destination, amount)]) ∧
    (∀ s' tr, withdraw_private s vk pf wt acc vault amount = .ok (s', tr) →
      amount + PRIVATE_OPERATION_FEE ≤ vault) := by
  refine ⟨⟨?_, ?_⟩, ?_, ?_⟩
  · intro hok
    cases hs : withdraw s k vault amount with
    | error e => rw [hs] at hok; exact Bool.noConfusion hok
    | ok v =>
      obtain ⟨s', tr⟩ := v
      obtain ⟨-, -, -, hk, hb⟩ := withdraw_ok_spec hs
      exact ⟨hk, hb⟩
  · intro ⟨hk, hb⟩
    rw [withdraw_eq_ok hk hb]
    rfl
  · intro s' tr hs
    obtain ⟨h1, h2, -⟩ := withdraw_ok_spec hs
    exact ⟨h1, h2⟩
  · intro s' tr hs
    exact (withdraw_private_ok_spec hs).2.2.2.2.1

/-- C10 witness: with `vault = amount = 100` exactly (no room for any
fee), the owner withdraw succeeds, and on success the state is unchanged
and exactly 100 is transferred. -/
theorem C10_withdraw_feeless_frame_witness :
    (withdraw (create_cloaked_agent 1 2 0 0 0 0 0 0) 1 100 100).isOk = true ∧
    (create_cloaked_agent 1 2 0 0 0 0 0 0 : CloakedAgentState) =
      create_cloaked_agent 1 2 0 0 0 0 0 0 ∧
    [(Recipient.destination, (100 : Nat))] = [(Recipient.destination, 100)] := by
  have h := @C10_withdraw_feeless_frame (create_cloaked_agent 1 2 0 0 0 0 0 0)
    1 100 100 ZK_VERIFIER_PROGRAM_ID [] [] true
  refine ⟨h.1.mpr (by decide), ?_, ?_⟩
  · exact (h.2.1 (create_cloaked_agent 1 2 0 0 0 0 0 0)
      [(Recipient.destination, 100)] (by rfl)).1
  · exact (h.2.1 (create_cloaked_agent 1 2 0 0 0 0 0 0)
      [(Recipient.destination, 100)] (by rfl)).2
